import Mathlib

/-!
Verification of the Chat Synchronization & Messaging Coordinator of a
Next.js school-management front-end.  The subsystem under study consists of

* `ChatEventBus` (utils/chatEventBus.ts): an in-process publish/subscribe
  bus with a cross-tab relay through a `localStorage` key,
* `useChatSync` (hooks/useChatSync.ts): a per-component subscription
  adapter with self-echo suppression,
* `chatService` (services/chats.ts): REST orchestration publishing bus
  events on successful mutations,
* `ChatWrapper` (components/chat/ChatWrapper.tsx): the optimistic UI state
  machine around `handleSendMessage`.

Each TypeScript function is embedded shallowly: pure functions become Lean
functions, stateful methods become explicit state-passing functions, and
side effects (REST calls, bus publications) are recorded in explicit
traces.  Machine integers do not occur; JavaScript timestamps are modelled
as `Nat` (`Date.now()` is non-negative and never near overflow).
-/

namespace ChatSync

/-! ## Data model (utils/chatEventBus.ts) -/

/-- The `ChatEventType` union of utils/chatEventBus.ts. -/
inductive ChatEventType where
  | conversation_created
  | conversation_updated
  | conversation_deleted
  | message_sent
  | force_refresh
deriving DecidableEq, Repr

/-- The `ChatEvent` interface of utils/chatEventBus.ts.  The free-form
`data` payload is modelled opaquely as an optional string. -/
structure ChatEvent where
  type : ChatEventType
  conversationId : Option String := none
  data : Option String := none
  timestamp : Nat
  userId : Option String := none
deriving DecidableEq, Repr

/-- A browser `StorageEvent` as consumed by `handleStorageEvent`: its key
and its (possibly null) new string value. -/
structure StorageEvent where
  key : String
  newValue : Option String
deriving DecidableEq, Repr

/-- Listener keys of the bus map: a concrete event type or the `'*'`
wildcard. -/
inductive EventKey where
  | type (t : ChatEventType)
  | wildcard
deriving DecidableEq, Repr

/-- Callbacks are identified by their JavaScript function identity; we
model identities as natural numbers. -/
abbrev Callback := Nat

/-- The bus's `listeners: Map<string, callback[]>`, as an association
list from keys to arrays of callbacks (JavaScript `Map` keys are
unique; the operations below preserve that). -/
abbrev Listeners := List (EventKey × List Callback)

/-- `this.listeners.get(k)`: the first entry for the key, if any
(JavaScript `Map` keys are unique, so first = only). -/
def mapFind (m : Listeners) (k : EventKey) : Option (List Callback) :=
  match m with
  | [] => none
  | (k', v) :: rest => if k = k' then some v else mapFind rest k

/-- `this.listeners.get(k) || []`: the callback array for a key, or the
empty array when the key is absent. -/
def mapGet (m : Listeners) (k : EventKey) : List Callback :=
  match mapFind m k with
  | some v => v
  | none => []

/-- `this.listeners.set(k, v)`: replace the array stored at `k` in
place, or append a fresh entry when `k` is absent (JavaScript `Map.set`
keeps an existing key's position and appends new keys in insertion
order). -/
def mapSet (m : Listeners) (k : EventKey) (v : List Callback) : Listeners :=
  match m with
  | [] => [(k, v)]
  | (k', w) :: rest => if k = k' then (k, v) :: rest else (k', w) :: mapSet rest k v

/-- Mutable state of one `ChatEventBus` instance that the relay path
touches: the listener map and `lastEventTimestamp` (initially `0`). -/
structure BusState where
  listeners : Listeners
  lastEventTimestamp : Nat
deriving DecidableEq, Repr

/-- `ChatEventBus.subscribe(eventType, callback)`: ensure the key has an
array, then push the callback.  (The returned unsubscribe closure is
`unsubscribe` below, applied to the same key and callback.) -/
def subscribe (m : Listeners) (k : EventKey) (cb : Callback) : Listeners :=
  let m := if (mapFind m k).isSome then m else mapSet m k []
  mapSet m k (mapGet m k ++ [cb])

/-- The closure returned by `subscribe`: look up the key's array
(`get(eventType) || []`), find the callback's first index
(`indexOf`), and `splice` it out when found.  When the key is absent the
splice acts on a fresh empty array and the map is unchanged. -/
def unsubscribe (m : Listeners) (k : EventKey) (cb : Callback) : Listeners :=
  match mapFind m k with
  | none => m
  | some ls => mapSet m k (ls.erase cb)

/-- `notifyListeners(event)`: the callbacks invoked for an event, in
invocation order - listeners of the event's type, then `'*'`
listeners.  (Each invocation is wrapped in try/catch in the source, so
a throwing listener does not change the set invoked.) -/
def notifyListeners (m : Listeners) (e : ChatEvent) : List Callback :=
  mapGet m (EventKey.type e.type) ++ mapGet m EventKey.wildcard

/-- `handleStorageEvent(e)`, the cross-tab relay receiver.  JSON parsing
of `e.newValue` is modelled by a `parse` oracle; a `none` result is the
`catch` branch (log and drop).  An empty-string `newValue` is falsy in
`e.newValue &&` and is skipped.  Returns the new bus state together with
the list of events dispatched to `notifyListeners` (empty or a
singleton). -/
def handleStorageEvent (parse : String → Option ChatEvent) (s : BusState)
    (e : StorageEvent) : BusState × List ChatEvent :=
  if e.key = "chat_event" then
    match e.newValue with
    | none => (s, [])
    | some v =>
      if v = "" then (s, [])
      else
        match parse v with
        | none => (s, [])
        | some event =>
          if event.timestamp ≤ s.lastEventTimestamp then (s, [])
          else ({ s with lastEventTimestamp := event.timestamp }, [event])
  else (s, [])

/-- Deliver a whole sequence of storage events to one bus instance,
accumulating the dispatch trace in arrival order. -/
def runBus (parse : String → Option ChatEvent) :
    BusState → List StorageEvent → BusState × List ChatEvent
  | s, [] => (s, [])
  | s, e :: rest =>
    let step := handleStorageEvent parse s e
    let next := runBus parse step.1 rest
    (next.1, step.2 ++ next.2)

/-! ## Environment listeners and `destroy` (utils/chatEventBus.ts) -/

/-- JavaScript function objects relevant to the bus's environment
listeners, by identity.  The constructor registers `.bind(this)` copies
of the three handler properties; `Function.prototype.bind` returns a
fresh function object, so each bound copy is distinct from the raw
arrow-function property it was produced from. -/
inductive Handler where
  | storageBound | storageRaw
  | focusBound | focusRaw
  | visibilityBound | visibilityRaw
deriving DecidableEq, Repr

/-- The browser-side listener registries the bus touches:
`window` `storage`/`focus` listeners and the `document`
`visibilitychange` listeners. -/
structure EnvState where
  storageListeners : List Handler
  focusListeners : List Handler
  visibilityListeners : List Handler
deriving DecidableEq, Repr

/-- Full observable state of one bus instance together with its
environment registrations. -/
structure FullBus where
  env : EnvState
  bus : BusState
deriving DecidableEq, Repr

/-- `new ChatEventBus()` in a browser (`typeof window !== 'undefined'`):
empty listener map, `lastEventTimestamp = 0`, and the three
`addEventListener` calls, each registering a fresh `.bind(this)` copy. -/
def mkChatEventBus : FullBus :=
  { env :=
      { storageListeners := [Handler.storageBound]
        focusListeners := [Handler.focusBound]
        visibilityListeners := [Handler.visibilityBound] }
    bus := { listeners := [], lastEventTimestamp := 0 } }

/-- `removeEventListener(name, f)`: removes the registration whose
function identity equals `f`, if any; otherwise a no-op. -/
def removeEventListener (l : List Handler) (f : Handler) : List Handler :=
  l.erase f

/-- `ChatEventBus.destroy()`: calls `removeEventListener` with the raw
handler properties (`this.handleStorageEvent` etc., NOT the bound
copies that were registered), then `this.listeners.clear()`. -/
def destroy (b : FullBus) : FullBus :=
  { env :=
      { storageListeners := removeEventListener b.env.storageListeners Handler.storageRaw
        focusListeners := removeEventListener b.env.focusListeners Handler.focusRaw
        visibilityListeners :=
          removeEventListener b.env.visibilityListeners Handler.visibilityRaw }
    bus := { listeners := [], lastEventTimestamp := b.bus.lastEventTimestamp } }

/-! ## Chat Service (services/chats.ts) -/

/-- The `Conversation` type of services/chats.ts (server-owned entity). -/
structure Conversation where
  id : String
  title : String
  first_message : String
  last_activity : String
  message_count : Nat
  is_archived : Bool
  created_at : String
deriving DecidableEq, Repr

/-- Opaque rendering block (`Block` of components/chat/tools/types). -/
abbrev Block := String

/-- The fields of a `response_data` record that the transform inspects:
its optional `blocks` array, plus the rest of the record opaquely. -/
structure ResponseData where
  blocks : Option (List Block) := none
  rest : String := ""
deriving DecidableEq, Repr

/-- The `ChatResponse` type of services/chats.ts (fields the subsystem
reads). -/
structure ChatResponse where
  response : String
  intent : Option String := none
  conversation_id : Option String := none
  message_id : Option String := none
  blocks : Option (List Block) := none
deriving DecidableEq, Repr

/-- The server `Message` record of services/chats.ts. -/
structure Message where
  id : String
  conversation_id : String
  message_type : String
  content : String
  intent : Option String := none
  response_data : Option ResponseData := none
  created_at : String
  rating : Option Int := none
deriving DecidableEq, Repr

/-- The client-side `DisplayMessage` projection of services/chats.ts. -/
structure DisplayMessage where
  role : String
  content : String
  blocks : Option (List Block) := none
  response_data : Option ResponseData := none
  intent : Option String := none
  id : Option String := none
  timestamp : Option String := none
  rating : Option Int := none
deriving DecidableEq, Repr

/-- `transformMessagesToDisplay(messages)`: map each server message to a
display message.  `role` is `'user'` iff `message_type === 'USER'`;
`blocks` is copied only for assistant messages whose `response_data`
carries a `blocks` value (a present array is always truthy in
JavaScript, empty or not); every other field is copied unchanged. -/
def transformMessagesToDisplay (messages : List Message) : List DisplayMessage :=
  messages.map fun msg =>
    let role : String := if msg.message_type = "USER" then "user" else "assistant"
    { role := role
      content := msg.content
      blocks :=
        if role = "assistant" then (msg.response_data.bind (fun rd => rd.blocks))
        else none
      response_data := msg.response_data
      intent := msg.intent
      id := some msg.id
      timestamp := some msg.created_at
      rating := msg.rating }

/-- The `updates` argument of `updateConversation`. -/
structure ConversationUpdates where
  title : Option String := none
  is_archived : Option Bool := none
deriving DecidableEq, Repr

/-- One observable side effect of a chatService operation, in program
order: a REST call, or a bus publication (recorded with the event type,
conversation id and user id passed to `chatEventBus.broadcast`). -/
inductive Action where
  | restCreate (title firstMessage : String)
  | restSendMessage (conversationId message : String)
  | restSendFiles (conversationId message : String)
  | restPut (conversationId : String) (updates : ConversationUpdates)
  | restGetConv (conversationId : String)
  | restDelete (conversationId : String)
  | bus (type : ChatEventType) (conversationId : Option String) (userId : Option String)
deriving DecidableEq, Repr

/-- Is a trace entry a bus publication? -/
def Action.isBus : Action → Bool
  | .bus _ _ _ => true
  | _ => false

/-- The bus publications contained in a trace, in order. -/
def busEvents (tr : List Action) : List Action :=
  tr.filter Action.isBus

/-- REST back-end oracle: the outcome of each HTTP call the service can
make, keyed by its arguments.  Errors are their surfaced message
strings. -/
structure Api where
  postCreate : String → String → Except String Conversation
  postMessage : String → String → Except String ChatResponse
  postFiles : String → String → Except String ChatResponse
  putConv : String → ConversationUpdates → Except String Unit
  getConv : String → Except String Conversation
  deleteConv : String → Except String Unit

/-- `chatService.createConversation(title, firstMessage)`: POST, then on
success broadcast `conversation_created` with the new id and the current
user id; on failure log and rethrow (no publication). -/
def createConversation (api : Api) (uid : Option String) (title firstMessage : String) :
    Except String Conversation × List Action :=
  match api.postCreate title firstMessage with
  | .ok data =>
    (.ok data, [.restCreate title firstMessage,
                .bus .conversation_created (some data.id) uid])
  | .error e => (.error e, [.restCreate title firstMessage])

/-- `chatService.sendMessageToConversation(conversationId, message,
context?, attachments?)`: POST to the conversation's messages endpoint,
then on success broadcast `message_sent`; on failure rethrow with no
publication.  (`context`/`attachments` only travel in the request body
and are folded into the oracle.) -/
def sendMessageToConversation (api : Api) (uid : Option String)
    (conversationId message : String) :
    Except String ChatResponse × List Action :=
  match api.postMessage conversationId message with
  | .ok data =>
    (.ok data, [.restSendMessage conversationId message,
                .bus .message_sent (some conversationId) uid])
  | .error e => (.error e, [.restSendMessage conversationId message])

/-- `!conversationId || conversationId === 'new'`: a missing id, the
empty string (falsy) or the sentinel `"new"` selects the
create-first path. -/
def isNewConv : Option String → Bool
  | none => true
  | some s => s = "" || s = "new"

/-- The auto-generated title `message.slice(0, 50) + (message.length >
50 ? '...' : '')`, shared by `sendMessage` and `sendMessageWithFiles`. -/
def autoTitle (message : String) : String :=
  (message.toList.take 50).asString ++ (if 50 < message.toList.length then "..." else "")

/-- `error.response?.data?.detail || error.message || 'File processing
failed'`, the error rewrapping of `sendMessageWithFiles`: the surfaced
message when non-empty, else the fallback. -/
def fileErrorMessage (e : String) : String :=
  if e = "" then "File processing failed" else e

/-- `chatService.sendMessageWithFiles(message, files, conversationId?)`:
when the id is absent/falsy or `"new"`, first `createConversation` with
the truncated title and the full message; then POST the multipart
message to the (possibly fresh) conversation and on success broadcast
`message_sent`.  Failures propagate; the files themselves only travel
in the form data and are folded into the oracle. -/
def sendMessageWithFiles (api : Api) (uid : Option String) (message : String)
    (files : List String) (conversationId : Option String) :
    Except String ChatResponse × List Action :=
  let sendTo (cid : String) (pre : List Action) :
      Except String ChatResponse × List Action :=
    match api.postFiles cid message with
    | .ok data =>
      (.ok data, pre ++ [.restSendFiles cid message,
                         .bus .message_sent (some cid) uid])
    | .error e => (.error (fileErrorMessage e), pre ++ [.restSendFiles cid message])
  if isNewConv conversationId then
    match createConversation api uid (autoTitle message) message with
    | (.error e, tr) => (.error e, tr)
    | (.ok newConversation, tr) => sendTo newConversation.id tr
  else
    match conversationId with
    | some cid => sendTo cid []
    | none => (.error "unreachable", [])

/-- `chatService.updateConversation(conversationId, updates)`: PUT, then
re-GET the conversation, then broadcast `conversation_updated`; any
failure rethrows before the broadcast. -/
def updateConversation (api : Api) (uid : Option String)
    (conversationId : String) (updates : ConversationUpdates) :
    Except String Conversation × List Action :=
  match api.putConv conversationId updates with
  | .error e => (.error e, [.restPut conversationId updates])
  | .ok _ =>
    match api.getConv conversationId with
    | .error e => (.error e, [.restPut conversationId updates, .restGetConv conversationId])
    | .ok data =>
      (.ok data, [.restPut conversationId updates, .restGetConv conversationId,
                  .bus .conversation_updated (some conversationId) uid])

/-- `chatService.deleteConversation(conversationId)`: DELETE, then on
success broadcast `conversation_deleted`; on failure rethrow with no
publication. -/
def deleteConversation (api : Api) (uid : Option String) (conversationId : String) :
    Except String Unit × List Action :=
  match api.deleteConv conversationId with
  | .ok _ =>
    (.ok (), [.restDelete conversationId,
              .bus .conversation_deleted (some conversationId) uid])
  | .error e => (.error e, [.restDelete conversationId])

/-- `chatService.sendMessage(message, conversationId?, context?)`: when
the id is absent/falsy or `"new"`, first `createConversation` with the
truncated title and the full message, then `sendMessageToConversation`
against the resolved id. -/
def sendMessage (api : Api) (uid : Option String) (message : String)
    (conversationId : Option String) :
    Except String ChatResponse × List Action :=
  if isNewConv conversationId then
    match createConversation api uid (autoTitle message) message with
    | (.error e, tr) => (.error e, tr)
    | (.ok newConversation, tr) =>
      let r := sendMessageToConversation api uid newConversation.id message
      (r.1, tr ++ r.2)
  else
    match conversationId with
    | some cid => sendMessageToConversation api uid cid message
    | none => (.error "unreachable", [])

/-! ## Sync Hook (hooks/useChatSync.ts) -/

/-- JavaScript truthiness of an optional string (`undefined`, `null` and
`""` are falsy). -/
def truthy : Option String → Bool
  | none => false
  | some s => s ≠ ""

/-- `shouldHandleEvent(userId)` inside `useChatSync`:
`!userId || userId !== currentUserId`.  `currentUserId` is
`getCurrentUserId() ?? undefined`. -/
def shouldHandleEvent (currentUserId : Option String) (userId : Option String) : Bool :=
  !truthy userId || userId ≠ currentUserId

/-- Whether the subscription handler `useChatSync` registers for an
event's type invokes the configured callback on that event: for the
four conversation-scoped event types the guard is
`shouldHandleEvent(event.userId) && event.conversationId`; for
`force_refresh` only `shouldHandleEvent(event.userId)`. -/
def callbackFires (currentUserId : Option String) (e : ChatEvent) : Bool :=
  match e.type with
  | .force_refresh => shouldHandleEvent currentUserId e.userId
  | _ => shouldHandleEvent currentUserId e.userId && truthy e.conversationId

/-! ## Chat Wrapper (components/chat/ChatWrapper.tsx) -/

/-- An entry of the wrapper's local `messages` state (the fields
`handleSendMessage` writes). -/
structure WMessage where
  role : String
  content : String
  blocks : Option (List Block) := none
  id : Option String := none
  intent : Option String := none
deriving DecidableEq, Repr

/-- The wrapper's React state: `messages`, `busy`, `error`. -/
structure WrapperState where
  messages : List WMessage
  busy : Bool
  error : Option String
deriving DecidableEq, Repr

/-- The synthetic assistant message appended on a failed send. -/
def sendErrorContent : String :=
  "Sorry, I encountered an error processing your message. Please try again."

/-- `handleSendMessage(text, context)` of ChatWrapper, run to completion
of its async body (single-threaded event loop; the REST outcome is
`sendMessage` over the `api` oracle).  Returns the resulting state and
the number of `chatService.sendMessage` invocations performed (0 when
the `busy` guard rejects the call, 1 otherwise).  On success the
assistant response is appended; on failure the optimistic user message
is removed (`prev.slice(0, -1)`) and the synthetic error message is
appended. -/
def handleSendMessage (api : Api) (uid : Option String)
    (conversationId : Option String) (s : WrapperState) (text : String) :
    WrapperState × Nat :=
  if s.busy then (s, 0)
  else
    let s1 : WrapperState :=
      { s with busy := true, error := none,
               messages := s.messages ++ [{ role := "user", content := text }] }
    match (sendMessage api uid text conversationId).1 with
    | .ok response =>
      ({ s1 with
          messages := s1.messages ++
            [{ role := "assistant", content := response.response,
               blocks := response.blocks, id := response.message_id,
               intent := response.intent }]
          busy := false }, 1)
    | .error e =>
      ({ s1 with
          messages := s1.messages.dropLast ++ [{ role := "assistant", content := sendErrorContent }]
          error := some (if e = "" then "Failed to send message" else e)
          busy := false }, 1)

/-- One wrapper lifetime: its React state, the `initialMessageProcessed`
ref, and a counter of `chatService.sendMessage` invocations made on its
behalf. -/
structure Wrapper where
  st : WrapperState
  initialMessageProcessed : Bool
  sendCount : Nat
deriving DecidableEq, Repr

/-- A freshly mounted `ChatWrapper` (`useState(initialMessages)`,
`useState(false)` for busy, `useRef(false)` for the latch). -/
def mkWrapper (initialMessages : List WMessage) : Wrapper :=
  { st := { messages := initialMessages, busy := false, error := none }
    initialMessageProcessed := false
    sendCount := 0 }

/-- One run of the mount effect of ChatWrapper: if `initialMessage` is
truthy, the `initialMessageProcessed` ref is still false and the
wrapper is not busy, set the ref (synchronously, before the send) and
invoke `handleSendMessage` on the initial message. -/
def runMountEffect (api : Api) (uid : Option String)
    (conversationId : Option String) (initialMessage : Option String)
    (w : Wrapper) : Wrapper :=
  match initialMessage with
  | none => w
  | some msg =>
    if msg ≠ "" && !w.initialMessageProcessed && !w.st.busy then
      let r := handleSendMessage api uid conversationId w.st msg
      { st := r.1, initialMessageProcessed := true, sendCount := w.sendCount + r.2 }
    else w

/-! ## Helper lemmas -/

/-- `handleStorageEvent` either leaves the state alone and dispatches
nothing, or dispatches exactly one event with a strictly newer
timestamp and records that timestamp. -/
theorem handleStorageEvent_cases (parse : String → Option ChatEvent)
    (s : BusState) (e : StorageEvent) :
    handleStorageEvent parse s e = (s, []) ∨
    ∃ ev, handleStorageEvent parse s e =
        ({ s with lastEventTimestamp := ev.timestamp }, [ev]) ∧
      s.lastEventTimestamp < ev.timestamp := by
  unfold handleStorageEvent
  by_cases hk : e.key = "chat_event"
  · simp only [hk, if_true]
    match e.newValue with
    | none => exact Or.inl rfl
    | some v =>
      by_cases hv : v = ""
      · simp [hv]
      · simp only [hv, if_false]
        match parse v with
        | none => exact Or.inl rfl
        | some event =>
          by_cases hts : event.timestamp ≤ s.lastEventTimestamp
          · simp [hts]
          · exact Or.inr ⟨event, by simp [hts], by omega⟩
  · simp [hk]

/-- Run invariant for a delivered sequence: the last-seen timestamp never
decreases, every dispatched event's timestamp lies strictly above the
starting last-seen value and at most at the final one, and the dispatch
trace is strictly increasing in timestamps. -/
theorem runBus_invariant (parse : String → Option ChatEvent)
    (s0 : BusState) (evs : List StorageEvent) :
    s0.lastEventTimestamp ≤ (runBus parse s0 evs).1.lastEventTimestamp ∧
    (∀ d ∈ (runBus parse s0 evs).2,
      s0.lastEventTimestamp < d.timestamp ∧
      d.timestamp ≤ (runBus parse s0 evs).1.lastEventTimestamp) ∧
    List.Chain' (fun a b : ChatEvent => a.timestamp < b.timestamp)
      (runBus parse s0 evs).2 := by
  induction evs generalizing s0 with
  | nil => simp [runBus]
  | cons e rest ih =>
    rcases handleStorageEvent_cases parse s0 e with hstep | ⟨ev, hstep, hlt⟩
    · simpa [runBus, hstep] using ih s0
    · have ihs := ih { s0 with lastEventTimestamp := ev.timestamp }
      refine ⟨?_, ?_, ?_⟩
      · simp only [runBus, hstep]
        exact le_trans (le_of_lt hlt) ihs.1
      · intro d hd
        simp only [runBus, hstep, List.mem_cons, List.singleton_append] at hd
        rcases hd with rfl | hd
        · exact ⟨hlt, by simpa [runBus, hstep] using ihs.1⟩
        · have := ihs.2.1 d hd
          refine ⟨lt_trans hlt this.1, ?_⟩
          simpa [runBus, hstep] using this.2
      · simp only [runBus, hstep, List.singleton_append]
        rw [List.chain'_cons']
        refine ⟨?_, ihs.2.2⟩
        intro b hb
        have hbmem : b ∈ (runBus parse { s0 with lastEventTimestamp := ev.timestamp } rest).2 :=
          List.mem_of_mem_head? hb
        exact (ihs.2.1 b hbmem).1

/-- C1 (Monotonic discard): on one `ChatEventBus` instance, a relayed
storage event is dispatched to listeners only when its timestamp is
strictly greater than the instance's last-seen timestamp - so an event
with timestamp ≤ the last-seen value is never dispatched, regardless of
arrival order - and a dispatched event updates the last-seen timestamp
to its own timestamp; consequently, over any delivered sequence, the
dispatched timestamps are strictly increasing and all exceed the
initial last-seen value. -/
theorem bus_monotonic_discard (parse : String → Option ChatEvent)
    (s : BusState) (e : StorageEvent) (ev : ChatEvent)
    (s0 : BusState) (evs : List StorageEvent)
    (hmem : ev ∈ (handleStorageEvent parse s e).2) :
    s.lastEventTimestamp < ev.timestamp ∧
    (handleStorageEvent parse s e).1.lastEventTimestamp = ev.timestamp ∧
    (∀ d ∈ (runBus parse s0 evs).2, s0.lastEventTimestamp < d.timestamp) ∧
    List.Chain' (fun a b : ChatEvent => a.timestamp < b.timestamp)
      (runBus parse s0 evs).2 := by
  rcases handleStorageEvent_cases parse s e with hstep | ⟨ev', hstep, hlt⟩
  · rw [hstep] at hmem
    simp at hmem
  · rw [hstep] at hmem
    simp only [List.mem_singleton] at hmem
    subst hmem
    have hrun := runBus_invariant parse s0 evs
    exact ⟨hlt, by rw [hstep], fun d hd => (hrun.2.1 d hd).1, hrun.2.2⟩

/-- Witness for `bus_monotonic_discard`: a concrete bus with last-seen
timestamp 3 dispatches a relayed event carrying timestamp 7. -/
theorem bus_monotonic_discard_witness :
    let ev7 : ChatEvent := { type := .message_sent, timestamp := 7 }
    let parse : String → Option ChatEvent := fun v => if v = "E7" then some ev7 else none
    let s : BusState := { listeners := [], lastEventTimestamp := 3 }
    let e : StorageEvent := { key := "chat_event", newValue := some "E7" }
    s.lastEventTimestamp < ev7.timestamp ∧
    (handleStorageEvent parse s e).1.lastEventTimestamp = ev7.timestamp ∧
    (∀ d ∈ (runBus parse s [e]).2, s.lastEventTimestamp < d.timestamp) ∧
    List.Chain' (fun a b : ChatEvent => a.timestamp < b.timestamp)
      (runBus parse s [e]).2 := by
  exact bus_monotonic_discard _ _ _ _ _ _ (by decide)

/-- C3 (destroy, code bug): on a bus constructed in a browser window
with one local subscription, `destroy()` clears the local subscriptions
and is idempotent, but it does NOT remove any of the three environment
listeners: the constructor registered fresh `.bind(this)` copies while
`destroy()` passes the raw handler properties to `removeEventListener`,
so all three bound handlers remain registered. -/
theorem destroy_leaves_environment_listeners :
    let b : FullBus :=
      { mkChatEventBus with
          bus := { listeners := subscribe [] EventKey.wildcard 1,
                   lastEventTimestamp := 0 } }
    (destroy b).env.storageListeners = [Handler.storageBound] ∧
    (destroy b).env.focusListeners = [Handler.focusBound] ∧
    (destroy b).env.visibilityListeners = [Handler.visibilityBound] ∧
    (destroy b).env = b.env ∧
    (destroy b).bus.listeners = [] ∧
    destroy (destroy b) = destroy b := by decide

/-! ### Map lemmas for `subscribe`/`unsubscribe` -/

/-- Looking up the key just set yields the stored array. -/
theorem mapFind_mapSet_self (m : Listeners) (k : EventKey) (v : List Callback) :
    mapFind (mapSet m k v) k = some v := by
  induction m with
  | nil => simp [mapSet, mapFind]
  | cons p m ih =>
    obtain ⟨a, b⟩ := p
    by_cases hp : k = a
    · simp [mapSet, hp, mapFind]
    · simp [mapSet, hp, mapFind, ih]

/-- Setting one key leaves every other key's lookup unchanged. -/
theorem mapFind_mapSet_ne (m : Listeners) (k k' : EventKey) (v : List Callback)
    (h : k' ≠ k) : mapFind (mapSet m k v) k' = mapFind m k' := by
  induction m with
  | nil => simp [mapSet, mapFind, h]
  | cons p m ih =>
    obtain ⟨a, b⟩ := p
    by_cases hp : k = a
    · subst hp
      simp [mapSet, mapFind, h]
    · simp [mapSet, hp, mapFind, ih]

/-- `mapGet` after `mapSet` at the same key. -/
theorem mapGet_mapSet_self (m : Listeners) (k : EventKey) (v : List Callback) :
    mapGet (mapSet m k v) k = v := by
  simp [mapGet, mapFind_mapSet_self]

/-- `mapGet` after `mapSet` at another key. -/
theorem mapGet_mapSet_ne (m : Listeners) (k k' : EventKey) (v : List Callback)
    (h : k' ≠ k) : mapGet (mapSet m k v) k' = mapGet m k' := by
  simp [mapGet, mapFind_mapSet_ne m k k' v h]

/-- The unsubscribe closure erases the first occurrence of its captured
callback from its captured key's array. -/
theorem mapGet_unsubscribe_self (m : Listeners) (k : EventKey) (cb : Callback) :
    mapGet (unsubscribe m k cb) k = (mapGet m k).erase cb := by
  unfold unsubscribe
  rcases hm : mapFind m k with _ | ls
  · simp [mapGet, hm]
  · rw [mapGet_mapSet_self]
    simp [mapGet, hm]

/-- The unsubscribe closure leaves every other key's array unchanged. -/
theorem mapGet_unsubscribe_ne (m : Listeners) (k k' : EventKey) (cb : Callback)
    (h : k' ≠ k) : mapGet (unsubscribe m k cb) k' = mapGet m k' := by
  unfold unsubscribe
  rcases hm : mapFind m k with _ | ls
  · rfl
  · exact mapGet_mapSet_ne m k k' _ h

/-- C8 counterexample: with the same callback subscribed twice to the
same event type, calling one returned unsubscribe function twice does
NOT leave the listener list unchanged after the first call - the second
call removes the other registration as well (`indexOf` finds the
remaining occurrence). -/
theorem unsubscribe_second_call_counterexample :
    let k := EventKey.type ChatEventType.message_sent
    let m := subscribe (subscribe [] k 7) k 7
    unsubscribe (unsubscribe m k 7) k 7 ≠ unsubscribe m k 7 ∧
    mapGet (unsubscribe (unsubscribe m k 7) k 7) k ≠
      mapGet (unsubscribe m k 7) k := by
  refine ⟨by decide, by decide⟩

/-- C8 amended (Unsubscribe behaviour): the function returned by
`subscribe` removes the first registration of its captured callback
under its captured key, leaves every other key untouched, and never
throws; when the callback is registered at most once under that key -
in particular after the first call has removed the only registration -
calling the function again has no further effect, but with duplicate
registrations of the same callback each call removes one more
occurrence (the count drops by exactly one per call while positive). -/
theorem unsubscribe_removes_first_registration (m : Listeners) (k k' : EventKey)
    (cb : Callback) (hk : k' ≠ k) :
    mapGet (unsubscribe m k cb) k = (mapGet m k).erase cb ∧
    mapGet (unsubscribe m k cb) k' = mapGet m k' ∧
    ((mapGet m k).count cb ≤ 1 →
      mapGet (unsubscribe (unsubscribe m k cb) k cb) k = mapGet (unsubscribe m k cb) k) ∧
    (cb ∈ mapGet m k →
      (mapGet (unsubscribe m k cb) k).count cb = (mapGet m k).count cb - 1) := by
  refine ⟨mapGet_unsubscribe_self m k cb, mapGet_unsubscribe_ne m k k' cb hk, ?_, ?_⟩
  · intro hcount
    rw [mapGet_unsubscribe_self, mapGet_unsubscribe_self]
    apply List.erase_of_not_mem
    intro hmem
    have := List.count_pos_iff.mpr hmem
    rw [List.count_erase_self] at this
    omega
  · intro _
    rw [mapGet_unsubscribe_self, List.count_erase_self]

/-- Witness for `unsubscribe_removes_first_registration`: one
registration of callback 7 under the `message_sent` key of a concrete
listener map. -/
theorem unsubscribe_removes_first_registration_witness :
    let k := EventKey.type ChatEventType.message_sent
    let m := subscribe [] k 7
    EventKey.wildcard ≠ k ∧
    (mapGet (unsubscribe m k 7) k = (mapGet m k).erase 7 ∧
     mapGet (unsubscribe m k 7) EventKey.wildcard = mapGet m EventKey.wildcard ∧
     ((mapGet m k).count 7 ≤ 1 →
       mapGet (unsubscribe (unsubscribe m k 7) k 7) k = mapGet (unsubscribe m k 7) k) ∧
     (7 ∈ mapGet m k →
       (mapGet (unsubscribe m k 7) k).count 7 = (mapGet m k).count 7 - 1)) := by
  exact ⟨by decide,
    unsubscribe_removes_first_registration _ _ EventKey.wildcard 7 (by decide)⟩

/-- C2 counterexample: a `conversation_created` event with no `userId`
(external/unknown origin, which the claim says is always processed) but
no `conversationId` does NOT invoke the configured callback - the
handler additionally requires a truthy `event.conversationId`. -/
theorem sync_hook_conversationless_counterexample :
    ¬ (callbackFires (some "u1")
        { type := ChatEventType.conversation_created, conversationId := none,
          data := none, timestamp := 1, userId := none } = true) := by
  decide

/-- C2 amended (Self-echo suppression): for current user id `U`
(non-empty, as produced by `getCurrentUserId`), a Sync Hook callback is
never invoked for an event whose `userId` equals `U`; for an event
whose `userId` is absent or differs from `U`, the callback is invoked
exactly when the event is a `force_refresh` or carries a truthy
`conversationId` (the four conversation-scoped handlers also guard on
`event.conversationId`). -/
theorem sync_hook_self_echo (U : String) (e : ChatEvent) (hU : U ≠ "") :
    (e.userId = some U → callbackFires (some U) e = false) ∧
    ((e.userId = none ∨ e.userId ≠ some U) →
      (callbackFires (some U) e = true ↔
        (e.type = ChatEventType.force_refresh ∨ truthy e.conversationId = true))) := by
  constructor
  · intro hid
    rcases e with ⟨t, cid, d, ts, uid⟩
    subst hid
    cases t <;> simp [callbackFires, shouldHandleEvent, truthy, hU]
  · intro hid
    rcases e with ⟨t, cid, d, ts, uid⟩
    have hshould : shouldHandleEvent (some U) uid = true := by
      rcases uid with _ | u
      · simp [shouldHandleEvent, truthy]
      · rcases hid with h | h
        · exact absurd h (by simp)
        · by_cases hu : u = ""
          · simp [shouldHandleEvent, truthy, hu]
          · have : some u ≠ some U := by simpa using h
            simp [shouldHandleEvent, truthy, hu, this]
    cases t <;> simp [callbackFires, hshould]

/-- Witness for `sync_hook_self_echo`: user "u1" and a `message_sent`
event from user "u2" with a conversation id. -/
theorem sync_hook_self_echo_witness :
    let e : ChatEvent := { type := ChatEventType.message_sent,
                           conversationId := some "c1", data := none,
                           timestamp := 5, userId := some "u2" }
    ("u1" : String) ≠ "" ∧
    ((e.userId = some "u1" → callbackFires (some "u1") e = false) ∧
     ((e.userId = none ∨ e.userId ≠ some "u1") →
       (callbackFires (some "u1") e = true ↔
         (e.type = ChatEventType.force_refresh ∨ truthy e.conversationId = true)))) := by
  exact ⟨by decide, sync_hook_self_echo "u1" _ (by decide)⟩

/-! ### Concrete REST oracles used by witnesses -/

/-- A back end on which every call succeeds. -/
def okApi : Api :=
  { postCreate := fun t f =>
      .ok { id := "c1", title := t, first_message := f, last_activity := "",
            message_count := 0, is_archived := false, created_at := "" }
    postMessage := fun _ _ => .ok { response := "reply" }
    postFiles := fun _ _ => .ok { response := "file-reply" }
    putConv := fun _ _ => .ok ()
    getConv := fun cid =>
      .ok { id := cid, title := "t", first_message := "f", last_activity := "",
            message_count := 0, is_archived := false, created_at := "" }
    deleteConv := fun _ => .ok () }

/-- A back end on which every call fails, each with its own message. -/
def failApi : Api :=
  { postCreate := fun _ _ => .error "ec"
    postMessage := fun _ _ => .error "em"
    postFiles := fun _ _ => .error "ef"
    putConv := fun _ _ => .error "ep"
    getConv := fun _ => .error "eg"
    deleteConv := fun _ => .error "ed" }

/-- A back end on which conversation creation succeeds but the
multipart message send fails. -/
def createOkSendFailApi : Api :=
  { okApi with postFiles := fun _ _ => .error "boom" }

/-- C4 (New-conversation file flow): when `sendMessageWithFiles` is
called with a missing or sentinel `"new"` conversation id and both REST
calls succeed, the operation performs exactly one `createConversation`
call followed by exactly one file-bearing send scoped to the newly
returned conversation id, and its event trace contains exactly two bus
publications, `conversation_created` then `message_sent`, in that
order. -/
theorem sendMessageWithFiles_new_conversation_flow (api : Api) (uid : Option String)
    (message : String) (files : List String) (conversationId : Option String)
    (conv : Conversation) (resp : ChatResponse)
    (hnew : isNewConv conversationId = true)
    (hcreate : api.postCreate (autoTitle message) message = .ok conv)
    (hsend : api.postFiles conv.id message = .ok resp) :
    sendMessageWithFiles api uid message files conversationId =
      (.ok resp,
       [.restCreate (autoTitle message) message,
        .bus .conversation_created (some conv.id) uid,
        .restSendFiles conv.id message,
        .bus .message_sent (some conv.id) uid]) := by
  unfold sendMessageWithFiles createConversation
  rw [hnew, if_pos rfl, hcreate]
  simp [hsend]

/-- Witness for `sendMessageWithFiles_new_conversation_flow`: message
"hello" with one file and no conversation id against `okApi`. -/
theorem sendMessageWithFiles_new_conversation_flow_witness :
    sendMessageWithFiles okApi (some "u1") "hello" ["f1"] none =
      (.ok { response := "file-reply" },
       [.restCreate (autoTitle "hello") "hello",
        .bus .conversation_created (some "c1") (some "u1"),
        .restSendFiles "c1" "hello",
        .bus .message_sent (some "c1") (some "u1")]) := by
  exact sendMessageWithFiles_new_conversation_flow okApi (some "u1") "hello" ["f1"]
    none
    { id := "c1", title := autoTitle "hello", first_message := "hello",
      last_activity := "", message_count := 0, is_archived := false, created_at := "" }
    { response := "file-reply" } (by decide) rfl rfl

/-- C5 counterexample: on a back end where conversation creation
succeeds but the file send fails, `sendMessageWithFiles` fails (the
error propagates) yet a `conversation_created` bus event WAS published
by the operation - contradicting "if the operation fails ... the
operation publishes no bus event" for `sendMessageWithFiles`. -/
theorem sendMessageWithFiles_partial_failure_counterexample :
    (sendMessageWithFiles createOkSendFailApi (some "u1") "hello" ["f1"] none).1 =
      .error "boom" ∧
    Action.bus .conversation_created (some "c1") (some "u1") ∈
      busEvents (sendMessageWithFiles createOkSendFailApi (some "u1") "hello" ["f1"] none).2 := by
  refine ⟨rfl, by decide⟩

/-- C5 amended (Failure publishes no event for the failed call): every
chatService mutation propagates a REST failure to its caller, and
`createConversation`, `sendMessageToConversation`, `updateConversation`
and `deleteConversation` publish no bus event at all on failure;
`sendMessageWithFiles` never publishes `message_sent` when it fails,
and publishes nothing at all when its (nested) conversation creation is
what failed - but when the nested creation succeeded before the file
send failed, the `conversation_created` event for that completed
creation has already been published. -/
theorem chatService_failure_no_event (api : Api) (uid : Option String)
    (title fm cid msg : String) (updates : ConversationUpdates)
    (files : List String) (ocid : Option String) :
    (∀ e, api.postCreate title fm = .error e →
      (createConversation api uid title fm).1 = .error e ∧
      busEvents (createConversation api uid title fm).2 = []) ∧
    (∀ e, api.postMessage cid msg = .error e →
      (sendMessageToConversation api uid cid msg).1 = .error e ∧
      busEvents (sendMessageToConversation api uid cid msg).2 = []) ∧
    (∀ e, api.putConv cid updates = .error e →
      (updateConversation api uid cid updates).1 = .error e ∧
      busEvents (updateConversation api uid cid updates).2 = []) ∧
    (∀ e, api.putConv cid updates = .ok () → api.getConv cid = .error e →
      (updateConversation api uid cid updates).1 = .error e ∧
      busEvents (updateConversation api uid cid updates).2 = []) ∧
    (∀ e, api.deleteConv cid = .error e →
      (deleteConversation api uid cid).1 = .error e ∧
      busEvents (deleteConversation api uid cid).2 = []) ∧
    (∀ e, isNewConv ocid = true → api.postCreate (autoTitle msg) msg = .error e →
      (sendMessageWithFiles api uid msg files ocid).1 = .error e ∧
      busEvents (sendMessageWithFiles api uid msg files ocid).2 = []) ∧
    (∀ e, (sendMessageWithFiles api uid msg files ocid).1 = .error e →
      ∀ c u, Action.bus .message_sent c u ∉
        (sendMessageWithFiles api uid msg files ocid).2) := by
  refine ⟨?_, ?_, ?_, ?_, ?_, ?_, ?_⟩
  · intro e he
    simp [createConversation, he, busEvents, Action.isBus]
  · intro e he
    simp [sendMessageToConversation, he, busEvents, Action.isBus]
  · intro e he
    simp [updateConversation, he, busEvents, Action.isBus]
  · intro e hok he
    simp [updateConversation, hok, he, busEvents, Action.isBus]
  · intro e he
    simp [deleteConversation, he, busEvents, Action.isBus]
  · intro e hnew he
    simp [sendMessageWithFiles, hnew, createConversation, he, busEvents, Action.isBus]
  · intro e hfail c u hmem
    by_cases hnew : isNewConv ocid = true
    · rcases hpc : api.postCreate (autoTitle msg) msg with epc | conv
      · simp [sendMessageWithFiles, hnew, createConversation, hpc] at hmem
      · rcases hpf : api.postFiles conv.id msg with ef | rf
        · simp [sendMessageWithFiles, hnew, createConversation, hpc, hpf] at hmem
        · simp [sendMessageWithFiles, hnew, createConversation, hpc, hpf] at hfail
    · rw [Bool.not_eq_true] at hnew
      rcases ocid with _ | c0
      · simp [isNewConv] at hnew
      · rcases hpf : api.postFiles c0 msg with ef | rf
        · simp [sendMessageWithFiles, hnew, hpf] at hmem
        · simp [sendMessageWithFiles, hnew, hpf] at hfail

/-- A back end on which the PUT succeeds but the follow-up GET fails. -/
def putOkGetFailApi : Api :=
  { failApi with putConv := fun _ _ => .ok () }

/-- Witness for `chatService_failure_no_event`: each failure conjunct
instantiated on a concrete failing back end. -/
theorem chatService_failure_no_event_witness :
    ((createConversation failApi (some "u1") "t" "f").1 = .error "ec" ∧
      busEvents (createConversation failApi (some "u1") "t" "f").2 = []) ∧
    ((sendMessageToConversation failApi (some "u1") "c9" "m").1 = .error "em" ∧
      busEvents (sendMessageToConversation failApi (some "u1") "c9" "m").2 = []) ∧
    ((updateConversation failApi (some "u1") "c9" {}).1 = .error "ep" ∧
      busEvents (updateConversation failApi (some "u1") "c9" {}).2 = []) ∧
    ((updateConversation putOkGetFailApi (some "u1") "c9" {}).1 = .error "eg" ∧
      busEvents (updateConversation putOkGetFailApi (some "u1") "c9" {}).2 = []) ∧
    ((deleteConversation failApi (some "u1") "c9").1 = .error "ed" ∧
      busEvents (deleteConversation failApi (some "u1") "c9").2 = []) ∧
    ((sendMessageWithFiles failApi (some "u1") "m" [] none).1 = .error "ec" ∧
      busEvents (sendMessageWithFiles failApi (some "u1") "m" [] none).2 = []) ∧
    (∀ c u, Action.bus .message_sent c u ∉
      (sendMessageWithFiles createOkSendFailApi (some "u1") "hello" ["f1"] none).2) := by
  refine ⟨?_, ?_, ?_, ?_, ?_, ?_, ?_⟩
  · exact (chatService_failure_no_event failApi (some "u1") "t" "f" "c9" "m" {} []
      none).1 "ec" rfl
  · exact (chatService_failure_no_event failApi (some "u1") "t" "f" "c9" "m" {} []
      none).2.1 "em" rfl
  · exact (chatService_failure_no_event failApi (some "u1") "t" "f" "c9" "m" {} []
      none).2.2.1 "ep" rfl
  · exact (chatService_failure_no_event putOkGetFailApi (some "u1") "t" "f" "c9" "m" {} []
      none).2.2.2.1 "eg" rfl rfl
  · exact (chatService_failure_no_event failApi (some "u1") "t" "f" "c9" "m" {} []
      none).2.2.2.2.1 "ed" rfl
  · exact (chatService_failure_no_event failApi (some "u1") "t" "f" "c9" "m" {} []
      none).2.2.2.2.2.1 "ec" (by decide) rfl
  · exact (chatService_failure_no_event createOkSendFailApi (some "u1") "t" "f" "c9"
      "hello" {} ["f1"] none).2.2.2.2.2.2 "boom" rfl

/-- C6 (Optimistic rollback): from a non-busy wrapper state, when the
underlying `chatService.sendMessage` fails, `handleSendMessage` leaves
the message list equal to the pre-call list plus exactly one
assistant-role error message: the optimistic user message appended
before the call is removed, and the final length is the pre-call
length + 1, not + 2. -/
theorem optimistic_rollback (api : Api) (uid : Option String)
    (conversationId : Option String) (s : WrapperState) (text e : String)
    (hbusy : s.busy = false)
    (hfail : (sendMessage api uid text conversationId).1 = .error e) :
    (handleSendMessage api uid conversationId s text).1.messages =
      s.messages ++ [{ role := "assistant", content := sendErrorContent }] ∧
    (handleSendMessage api uid conversationId s text).1.messages.length =
      s.messages.length + 1 := by
  have hmain : (handleSendMessage api uid conversationId s text).1.messages =
      s.messages ++ [{ role := "assistant", content := sendErrorContent }] := by
    unfold handleSendMessage
    rw [hbusy]
    simp only [Bool.false_eq_true, if_false, hfail]
    simp [List.dropLast_concat]
  exact ⟨hmain, by rw [hmain]; simp⟩

/-- Witness for `optimistic_rollback`: an empty non-busy wrapper whose
send against an existing conversation fails on `failApi`. -/
theorem optimistic_rollback_witness :
    let s : WrapperState := { messages := [], busy := false, error := none }
    (handleSendMessage failApi (some "u1") (some "c9") s "hi").1.messages =
      s.messages ++ [{ role := "assistant", content := sendErrorContent }] ∧
    (handleSendMessage failApi (some "u1") (some "c9") s "hi").1.messages.length =
      s.messages.length + 1 := by
  exact optimistic_rollback failApi (some "u1") (some "c9") _ "hi" "em" rfl rfl

/-- A wrapper whose latch is set is a fixed point of the mount effect. -/
theorem runMountEffect_latched (api : Api) (uid : Option String)
    (conversationId : Option String) (initialMessage : Option String)
    (w : Wrapper) (h : w.initialMessageProcessed = true) :
    runMountEffect api uid conversationId initialMessage w = w := by
  unfold runMountEffect
  rcases initialMessage with _ | msg
  · rfl
  · simp [h]

/-- C7 (One-shot initial send): for a freshly mounted wrapper with a
non-null, non-empty `initialMessage`, running the mount effect twice in
rapid succession (duplicate-invocation frameworks) invokes
`chatService.sendMessage` exactly once for the initial message, and the
count stays at exactly one under any number `n ≥ 1` of effect re-runs -
the `initialMessageProcessed` ref latch, set synchronously before the
send, blocks every later run. -/
theorem one_shot_initial_send (api : Api) (uid : Option String)
    (conversationId : Option String) (msg : String)
    (initialMessages : List WMessage) (hmsg : msg ≠ "") :
    (runMountEffect api uid conversationId (some msg)
      (runMountEffect api uid conversationId (some msg)
        (mkWrapper initialMessages))).sendCount = 1 ∧
    (∀ n, 1 ≤ n →
      ((runMountEffect api uid conversationId (some msg))^[n]
        (mkWrapper initialMessages)).sendCount = 1) := by
  have hfirst : (runMountEffect api uid conversationId (some msg)
      (mkWrapper initialMessages)).sendCount = 1 ∧
      (runMountEffect api uid conversationId (some msg)
        (mkWrapper initialMessages)).initialMessageProcessed = true := by
    unfold runMountEffect mkWrapper handleSendMessage
    simp only [hmsg]
    rcases (sendMessage api uid msg conversationId).1 with e | r <;> simp [hmsg]
  have hiter : ∀ n, ((runMountEffect api uid conversationId (some msg))^[n]
      (runMountEffect api uid conversationId (some msg) (mkWrapper initialMessages))) =
      runMountEffect api uid conversationId (some msg) (mkWrapper initialMessages) := by
    intro n
    induction n with
    | zero => rfl
    | succ n ih =>
      rw [Function.iterate_succ_apply, runMountEffect_latched _ _ _ _ _ hfirst.2, ih]
  constructor
  · rw [runMountEffect_latched _ _ _ _ _ hfirst.2]
    exact hfirst.1
  · intro n hn
    rcases Nat.exists_eq_add_of_le hn with ⟨m, rfl⟩
    rw [add_comm, Function.iterate_add_apply, Function.iterate_one, hiter m]
    exact hfirst.1

/-- Witness for `one_shot_initial_send`: initial message "hello" on a
fresh wrapper over the all-success back end, re-run three times. -/
theorem one_shot_initial_send_witness :
    ("hello" : String) ≠ "" ∧
    (runMountEffect okApi (some "u1") (some "c1") (some "hello")
      (runMountEffect okApi (some "u1") (some "c1") (some "hello")
        (mkWrapper []))).sendCount = 1 ∧
    ((runMountEffect okApi (some "u1") (some "c1") (some "hello"))^[3]
      (mkWrapper [])).sendCount = 1 := by
  have h := one_shot_initial_send okApi (some "u1") (some "c1") "hello" [] (by decide)
  exact ⟨by decide, h.1, h.2 3 (by decide)⟩

/-- C9 (Transform determinism): `transformMessagesToDisplay` is a pure
function of its input - applied to equal input arrays it yields
deep-equal outputs - and produces one display message per server
message; the embedding is stateless because the source performs no
writes, so no side effect and no mutation of the input array can
occur. -/
theorem transform_deterministic (messages other : List Message)
    (h : other = messages) :
    transformMessagesToDisplay other = transformMessagesToDisplay messages ∧
    (transformMessagesToDisplay messages).length = messages.length := by
  subst h
  exact ⟨rfl, by simp [transformMessagesToDisplay]⟩

/-- Witness for `transform_deterministic`: a concrete two-message
conversation transformed twice. -/
theorem transform_deterministic_witness :
    let msgs : List Message :=
      [{ id := "m1", conversation_id := "c1", message_type := "USER",
         content := "hi", created_at := "t1" },
       { id := "m2", conversation_id := "c1", message_type := "ASSISTANT",
         content := "hello", created_at := "t2",
         response_data := some { blocks := some ["b"] } }]
    transformMessagesToDisplay msgs = transformMessagesToDisplay msgs ∧
    (transformMessagesToDisplay msgs).length = msgs.length := by
  exact transform_deterministic _ _ rfl

/-- C10 (Auto-created conversation title): whenever `sendMessage` or
`sendMessageWithFiles` auto-creates a conversation (id absent, falsy or
the sentinel `"new"`), the created conversation's title is the first 50
characters of the message, with `"..."` appended exactly when the
message is longer than 50 characters - so for messages of at most 50
characters the title is the message itself - and the conversation's
first message is the full, untruncated message text. -/
theorem auto_created_conversation_title (api : Api) (uid : Option String)
    (message : String) (files : List String) (conversationId : Option String)
    (hnew : isNewConv conversationId = true) :
    (sendMessageWithFiles api uid message files conversationId).2.head? =
      some (.restCreate (autoTitle message) message) ∧
    (sendMessage api uid message conversationId).2.head? =
      some (.restCreate (autoTitle message) message) ∧
    (message.toList.length ≤ 50 → autoTitle message = message) ∧
    (50 < message.toList.length →
      autoTitle message = (message.toList.take 50).asString ++ "...") := by
  refine ⟨?_, ?_, ?_, ?_⟩
  · unfold sendMessageWithFiles createConversation
    rw [hnew, if_pos rfl]
    rcases h : api.postCreate (autoTitle message) message with e | conv
    · rfl
    · rcases h2 : api.postFiles conv.id message with e2 | r <;> simp [h2]
  · unfold sendMessage createConversation
    rw [hnew, if_pos rfl]
    rcases h : api.postCreate (autoTitle message) message with e | conv
    · rfl
    · rcases h2 : api.postMessage conv.id message with e2 | r <;>
        simp [sendMessageToConversation, h2]
  · intro hle
    unfold autoTitle
    rw [if_neg (by omega), List.take_of_length_le hle, String.asString_toList,
      String.append_empty]
  · intro hgt
    unfold autoTitle
    rw [if_pos hgt]

/-- Witness for `auto_created_conversation_title`: message "hello" with
no conversation id. -/
theorem auto_created_conversation_title_witness :
    (sendMessageWithFiles okApi (some "u1") "hello" ["f1"] none).2.head? =
      some (.restCreate (autoTitle "hello") "hello") ∧
    (sendMessage okApi (some "u1") "hello" none).2.head? =
      some (.restCreate (autoTitle "hello") "hello") ∧
    (("hello" : String).toList.length ≤ 50 → autoTitle "hello" = "hello") ∧
    (50 < ("hello" : String).toList.length →
      autoTitle "hello" = (("hello" : String).toList.take 50).asString ++ "...") := by
  exact auto_created_conversation_title okApi (some "u1") "hello" ["f1"] none (by decide)

end ChatSync
